import Mathlib

/-!
# Verification of the Scott Adams adventure interpreter (`main.go`)

Shallow embedding of the Go interpreter in `src/main.go`.  Conventions:

* Go `int` is embedded as `Int` where negative values can occur (counters,
  item locations, rooms), and as `Nat` for values that are decoded with
  `/` and `%` from non-negative packed fields (opcodes, parameters).
* Go slice/array indexing panics on an out-of-range index; where a panic is
  reachable we model the access with `List.get?` and propagate `none`
  (`CmdResult.panicked`).  Fixed-size Go arrays (`Conditions [5]int`,
  `AltCounters [9]int`, `AltRooms [6]int`) always have their full length, so
  accesses the Go code makes with a constant in-range index are embedded with
  `List.getD`, which agrees with the array access on states of the proper
  shape (all states built by the loader).
* `fmt.Print*` output is collected in a `List String` of emitted lines.
  Debug-only output (gated by the `Debug` flag) and the interactive
  prompt/file I/O of Save/Load are not part of the embedded state; the
  save/load codec is embedded on the decoded line contents (`List Int`),
  since Go round-trips `int` values through decimal text losslessly.
* Fields of `GameState`/`GameHeader` that only the loader, parser and
  display code touch (`Rooms`, `Words`, `ActionTitles`, word-length and
  count fields, `Debug`) are omitted: no operation embedded here reads them.
-/

namespace Adventure

/-- Go constant `CARRIED = 255`: item location meaning "carried by player". -/
def CARRIED : Int := 255

/-- Go constant `DESTROYED = 0`: item location meaning "in room 0". -/
def DESTROYED : Int := 0

/-- `1 << uint(p)` on a Go `uint32`: shifts of 32 or more produce 0. -/
def shl32 (p : Nat) : Nat := if p < 32 then 2 ^ p else 0

/-- `x &^ (1 << uint(p))` on Go `uint32` values: clear bit `p` of `x`
(for `x < 2^32` this is conjunction with the complemented mask). -/
def clearBit32 (x : Nat) (p : Nat) : Nat := x &&& (4294967295 ^^^ shl32 p)

/-- The header fields of `GameHeader` consulted by the embedded operations
(the loader-only and parser-only fields are omitted). -/
structure GameHeader where
  numItems : Nat
  numRooms : Nat
  maxCarry : Nat
  treasures : Nat
  lightTime : Nat
  treasureRoom : Int
  adventureNumber : Int
deriving DecidableEq, Repr

/-- Go `Action`: decoded verb/noun plus the 5 raw condition values and the
2 raw command-pair values (`Conditions [5]int`, `Commands [2]int`). -/
structure Action where
  verb : Nat
  noun : Nat
  conditions : List Nat
  commands : List Nat
deriving DecidableEq, Repr

/-- The per-item static data used at run time (`Description` for display,
`OriginalLocation` for conditions 17/18). -/
structure ItemRec where
  description : String
  originalLocation : Int
deriving DecidableEq, Repr

/-- Go `GameState` restricted to the fields the embedded operations read or
write.  `itemLocations` mirrors `ItemLocations []int`; `altCounters` has 9
entries (slot 8 is the light timer) and `altRooms` 6 entries. -/
structure GameState where
  header : GameHeader
  items : List ItemRec
  actions : List Action
  messages : List String
  currentRoom : Int
  itemLocations : List Int
  bitFlags : Nat
  counter : Int
  altCounters : List Int
  altRooms : List Int
  continueFlag : Bool
  displayedRoom : Bool
  currentAction : Nat
deriving DecidableEq, Repr

/-- The loop of condition 10 (`ANY`): scan `ItemLocations`, return true at
the first index `i ≤ numItems` holding `CARRIED`. -/
def anyCarriedAux (numItems : Nat) : Nat → List Int → Bool
  | _, [] => false
  | i, loc :: rest =>
    if i ≤ numItems ∧ loc = CARRIED then true else anyCarriedAux numItems (i + 1) rest

/-- Go `EvaluateCondition`: evaluate one decoded condition.  `none` models a
Go runtime panic from an out-of-range slice index (`ItemLocations[parameter]`
or `Items[parameter]`).  The `fmt.Printf` of the `default` arm is omitted
(its result, `false`, is kept). -/
def evaluateCondition (s : GameState) (code : Nat) (parameter : Nat) : Option Bool :=
  match code with
  | 0 => some true
  | 1 => (s.itemLocations.get? parameter).map fun l => decide (l = CARRIED)
  | 2 => (s.itemLocations.get? parameter).map fun l => decide (l = s.currentRoom)
  | 3 => (s.itemLocations.get? parameter).map fun l =>
      decide (l = CARRIED ∨ l = s.currentRoom)
  | 4 => some (decide (s.currentRoom = (parameter : Int)))
  | 5 => (s.itemLocations.get? parameter).map fun l => decide (l ≠ s.currentRoom)
  | 6 => (s.itemLocations.get? parameter).map fun l => decide (l ≠ CARRIED)
  | 7 => some (decide (s.currentRoom ≠ (parameter : Int)))
  | 8 => some (decide (s.bitFlags &&& shl32 parameter ≠ 0))
  | 9 => some (decide (s.bitFlags &&& shl32 parameter = 0))
  | 10 => some (anyCarriedAux s.header.numItems 0 s.itemLocations)
  | 11 => some (!anyCarriedAux s.header.numItems 0 s.itemLocations)
  | 12 => (s.itemLocations.get? parameter).map fun l =>
      decide (l ≠ CARRIED ∧ l ≠ s.currentRoom)
  | 13 => (s.itemLocations.get? parameter).map fun l => decide (l ≠ DESTROYED)
  | 14 => (s.itemLocations.get? parameter).map fun l => decide (l = DESTROYED)
  | 15 => some (decide (s.counter ≤ (parameter : Int)))
  | 16 => some (decide ((parameter : Int) < s.counter))
  | 17 =>
    match s.itemLocations.get? parameter, s.items.get? parameter with
    | some l, some it => some (decide (l = it.originalLocation))
    | _, _ => none
  | 18 =>
    match s.itemLocations.get? parameter, s.items.get? parameter with
    | some l, some it => some (decide (l ≠ it.originalLocation))
    | _, _ => none
  | 19 => some (decide (s.counter = (parameter : Int)))
  | _ => some false

/-- The loop body of Go `CheckConditions`: raw value 0 is skipped, otherwise
decode `code = c % 20`, `parameter = c / 20` and evaluate; short-circuit on
the first failure; `none` propagates a panic. -/
def checkCondList (s : GameState) : List Nat → Option Bool
  | [] => some true
  | c :: rest =>
    if c = 0 then checkCondList s rest
    else
      match evaluateCondition s (c % 20) (c / 20) with
      | none => none
      | some false => some false
      | some true => checkCondList s rest

/-- Go `CheckConditions` for a given action row. -/
def checkConditions (s : GameState) (a : Action) : Option Bool :=
  checkCondList s a.conditions

/-- The carried-item count loop of `GetItem` (and `DisplayInventory`):
count entries of `ItemLocations` at index `i ≤ numItems` equal to `CARRIED`. -/
def countCarriedAux (numItems : Nat) : Nat → List Int → Nat
  | _, [] => 0
  | i, loc :: rest =>
    (if i ≤ numItems ∧ loc = CARRIED then 1 else 0) + countCarriedAux numItems (i + 1) rest

/-- Number of carried items as counted by `GetItem`. -/
def countCarried (s : GameState) : Nat :=
  countCarriedAux s.header.numItems 0 s.itemLocations

/-- Go `getItemDescription`: strip `*`, cut at the first `/`, trim.
Out-of-range lookups into `Items` cannot occur on loader-shaped states
(`items` and `itemLocations` have equal length), so `getD` is used. -/
def getItemDescription (s : GameState) (itemNumber : Int) : String :=
  if itemNumber < 0 ∨ (s.header.numItems : Int) < itemNumber then "unknown item"
  else
    let desc := ((s.items.getD itemNumber.toNat ⟨"", 0⟩).description).replace "*" ""
    let desc := match desc.splitOn "/" with
      | [] => desc
      | d :: _ => d
    desc.trim

/-- Go `GetItem`: reject a non-existent item; reject an item not in the
current room; reject when the carried count has reached `MaxCarry`; otherwise
move the item to `CARRIED`.  Output lines are returned alongside the state. -/
def getItem (s : GameState) (itemNumber : Int) : GameState × List String :=
  if itemNumber ≤ 0 ∨ (s.header.numItems : Int) < itemNumber then
    (s, ["I don\x27t see that here."])
  else if s.itemLocations.getD itemNumber.toNat 0 ≠ s.currentRoom then
    (s, ["I don\x27t see that here."])
  else if s.header.maxCarry ≤ countCarried s then
    (s, ["I\x27m carrying too much already."])
  else
    ({ s with itemLocations := s.itemLocations.set itemNumber.toNat CARRIED },
     ["I\x27m now carrying the " ++ getItemDescription s itemNumber])

/-- Go `DropItem`: reject a non-existent item; reject an item that is not
carried; otherwise move the item to the current room. -/
def dropItem (s : GameState) (itemNumber : Int) : GameState × List String :=
  if itemNumber ≤ 0 ∨ (s.header.numItems : Int) < itemNumber then
    (s, ["I don\x27t have that."])
  else if s.itemLocations.getD itemNumber.toNat 0 ≠ CARRIED then
    (s, ["I don\x27t have that."])
  else
    ({ s with itemLocations := s.itemLocations.set itemNumber.toNat s.currentRoom },
     ["I\x27ve dropped the " ++ getItemDescription s itemNumber])

/-- Result of running a command or an action scan: a new state plus emitted
lines, a Go runtime panic (out-of-range index or division by zero), or
process exit via `os.Exit` (the FINI opcode). -/
inductive CmdResult where
  | ok : GameState → List String → CmdResult
  | panicked : CmdResult
  | exited : List String → CmdResult
deriving DecidableEq, Repr

/-- Sequencing of two command executions: output accumulates; a panic or an
exit stops execution. -/
def seqCmd (r : CmdResult) (f : GameState → CmdResult) : CmdResult :=
  match r with
  | .ok s out =>
    match f s with
    | .ok s' out' => .ok s' (out ++ out')
    | .panicked => .panicked
    | .exited out' => .exited (out ++ out')
  | .panicked => .panicked
  | .exited out => .exited out

/-- The treasure-count loop of `DisplayScore`; `none` models the panic from
`Items[i]` when `items` is shorter than `itemLocations`. -/
def scoreCountAux (s : GameState) : Nat → List Int → Option Nat
  | _, [] => some 0
  | i, loc :: rest =>
    if i ≤ s.header.numItems ∧ loc = s.header.treasureRoom then
      match s.items.get? i with
      | none => none
      | some it =>
        (scoreCountAux s (i + 1) rest).map fun c =>
          (if it.description.contains (Char.ofNat 42) then 1 else 0) + c
    else scoreCountAux s (i + 1) rest

/-- Go `DisplayScore`: counts stored treasures and prints two lines; the
division by `Treasures` panics when that header field is zero. -/
def displayScore (s : GameState) : CmdResult :=
  match scoreCountAux s 0 s.itemLocations with
  | none => .panicked
  | some tc =>
    if s.header.treasures = 0 then .panicked
    else
      .ok s
        (["I\x27ve stored " ++ toString tc ++ " treasures.",
          "On a scale of 0 to 100, that rates a " ++
            toString ((tc * 100) / s.header.treasures) ++ "."] ++
          (if tc = s.header.treasures then
            ["Well done! You\x27ve found all the treasures!"] else []))

/-- The item listing loop of `DisplayInventory`. -/
def inventoryLinesAux (s : GameState) : Nat → List Int → List String
  | _, [] => []
  | i, loc :: rest =>
    (if i ≤ s.header.numItems ∧ loc = CARRIED then
      ["- " ++ getItemDescription s (i : Int)] else []) ++
      inventoryLinesAux s (i + 1) rest

/-- Go `DisplayInventory`. -/
def displayInventory (s : GameState) : List String :=
  let ls := inventoryLinesAux s 0 s.itemLocations
  "I\x27m carrying:" :: (if ls = [] then ["Nothing."] else ls)

/-- Opcode 69 (FILL): reset the light timer, clear `LIGHTOUTBIT`, force-carry
item 9 (the `ItemLocations[9]` access can panic on a short table). -/
def fillLight (s : GameState) : CmdResult :=
  let s := { s with altCounters := s.altCounters.set 8 (s.header.lightTime : Int),
                    bitFlags := clearBit32 s.bitFlags 16 }
  match s.itemLocations.get? 9 with
  | none => .panicked
  | some loc =>
    if loc ≠ CARRIED then .ok { s with itemLocations := s.itemLocations.set 9 CARRIED } []
    else .ok s []

/-- `state.ItemLocations[idx] = v` with the Go bounds check: panic when
`idx` is out of range. -/
def setItemLoc (s : GameState) (idx : Nat) (v : Int) : CmdResult :=
  if idx < s.itemLocations.length then
    .ok { s with itemLocations := s.itemLocations.set idx v } []
  else .panicked

/-- The switch body of Go `ExecuteCommand`, after the parameter has been
fetched from the condition slot `cmdPosition` of the current action (`a?` is
that action when `cmdPosition < 5`).  Mirrors the Go cases one to one;
opcodes absent from the switch fall through to a no-op.  Opcode 63 calls
`os.Exit(0)`; 70 emits an ANSI clear sequence; 71 performs interactive save
I/O which does not mutate `GameState` and is embedded as its final output
line; 88 sleeps. -/
def executeCommandCore (s : GameState) (cmd : Nat) (cmdPosition : Nat)
    (parameter : Nat) (a? : Option Action) : CmdResult :=
  if 1 ≤ cmd ∧ cmd ≤ 51 then
    match s.messages.get? cmd with
    | none => .panicked
    | some m => .ok s [m]
  else if 102 ≤ cmd ∧ cmd ≤ 149 then
    match s.messages.get? (cmd - 50) with
    | none => .panicked
    | some m => .ok s [m]
  else
    match cmd with
    | 52 =>
      match getItem s (parameter : Int) with
      | (s', out) => .ok s' out
    | 53 =>
      match dropItem s (parameter : Int) with
      | (s', out) => .ok s' out
    | 54 => .ok { s with currentRoom := (parameter : Int), displayedRoom := false } []
    | 55 => setItemLoc s parameter DESTROYED
    | 56 => .ok { s with bitFlags := s.bitFlags ||| shl32 15 } []
    | 57 => .ok { s with bitFlags := clearBit32 s.bitFlags 15 } []
    | 58 => .ok { s with bitFlags := s.bitFlags ||| shl32 parameter } []
    | 59 => setItemLoc s parameter DESTROYED
    | 60 => .ok { s with bitFlags := clearBit32 s.bitFlags parameter } []
    | 61 => .ok { s with currentRoom := (s.header.numRooms : Int), displayedRoom := false } []
    | 62 =>
      if cmdPosition < 5 then
        match a? with
        | none => .panicked
        | some a =>
          match a.conditions.get? (cmdPosition + 1) with
          | none => .panicked
          | some c => setItemLoc s parameter ((c / 20 : Nat) : Int)
      else .ok s []
    | 63 => .exited ["Game over! You\x27ve completed the adventure!"]
    | 64 => .ok { s with displayedRoom := false } []
    | 65 => displayScore s
    | 66 => .ok s (displayInventory s)
    | 67 => .ok { s with bitFlags := s.bitFlags ||| shl32 0 } []
    | 68 => .ok { s with bitFlags := clearBit32 s.bitFlags 0 } []
    | 69 => fillLight s
    | 70 => .ok s ["\x1b[H\x1b[2J"]
    | 71 => .ok s ["Game saved."]
    | 72 =>
      if cmdPosition < 4 then
        match a? with
        | none => .panicked
        | some a =>
          let item2 := (a.conditions.getD (cmdPosition + 1) 0) / 20
          if parameter < s.itemLocations.length ∧ item2 < s.itemLocations.length then
            let swapped :=
              (s.itemLocations.set parameter (s.itemLocations.getD item2 0)).set item2
                (s.itemLocations.getD parameter 0)
            .ok { s with itemLocations := swapped } []
          else .panicked
      else .ok s []
    | 73 => .ok { s with continueFlag := true } []
    | 74 => setItemLoc s parameter CARRIED
    | 75 =>
      if cmdPosition < 4 then
        match a? with
        | none => .panicked
        | some a =>
          let item2 := (a.conditions.getD (cmdPosition + 1) 0) / 20
          if item2 < s.itemLocations.length then
            setItemLoc s parameter (s.itemLocations.getD item2 0)
          else .panicked
      else .ok s []
    | 77 => .ok { s with counter := s.counter - 1 } []
    | 78 => .ok s ["Counter = " ++ toString s.counter]
    | 79 => .ok { s with counter := (parameter : Int) } []
    | 80 => .ok { s with currentRoom := s.altRooms.getD 0 0,
                         altRooms := s.altRooms.set 0 s.currentRoom,
                         displayedRoom := false } []
    | 81 =>
      if parameter < s.altCounters.length then
        .ok { s with counter := s.altCounters.getD parameter 0,
                     altCounters := s.altCounters.set parameter s.counter } []
      else .panicked
    | 82 => .ok { s with counter := s.counter + (parameter : Int) } []
    | 83 =>
      let c := s.counter - (parameter : Int)
      .ok { s with counter := if c < -1 then -1 else c } []
    | 84 => .ok s []
    | 85 => .ok s []
    | 86 => .ok s [""]
    | 87 =>
      if parameter < s.altRooms.length then
        .ok { s with currentRoom := s.altRooms.getD parameter 0,
                     altRooms := s.altRooms.set parameter s.currentRoom,
                     displayedRoom := false } []
      else .panicked
    | 88 => .ok s []
    | _ => .ok s []

/-- Go `ExecuteCommand`: first fetch the parameter from the condition slot
aligned with `cmdPosition` of `Actions[CurrentAction]` (this dereference
panics when `CurrentAction` is out of range), then run the switch.  The
parameter is always `Conditions[cmdPosition] / 20`; it is never read from
the command value itself. -/
def executeCommand (s : GameState) (cmd : Nat) (cmdPosition : Nat) : CmdResult :=
  if cmdPosition < 5 then
    match s.actions.get? s.currentAction with
    | none => .panicked
    | some a => executeCommandCore s cmd cmdPosition ((a.conditions.getD cmdPosition 0) / 20) (some a)
  else executeCommandCore s cmd cmdPosition 0 none

/-- One command pair of Go `ExecuteCommands`: an encoded value of 0 skips
both halves; otherwise run `cmd / 150` with position 0 and `cmd % 150` with
position `pairIndex + 1`. -/
def execCommandPair (s : GameState) (cmd : Nat) (pairIndex : Nat) : CmdResult :=
  if cmd = 0 then .ok s []
  else seqCmd (executeCommand s (cmd / 150) 0)
    (fun s1 => executeCommand s1 (cmd % 150) (pairIndex + 1))

/-- Go `ExecuteCommands`: record the action index in `CurrentAction`, then
run the two command pairs.  (The debug title print is omitted.) -/
def executeCommands (s : GameState) (actionIndex : Nat) : CmdResult :=
  match s.actions.get? actionIndex with
  | none => .panicked
  | some a =>
    let s0 := { s with currentAction := actionIndex }
    seqCmd (execCommandPair s0 (a.commands.getD 0 0) 0)
      (fun s1 => execCommandPair s1 (a.commands.getD 1 0) 1)

/-- Result of an action-table scan: final state, emitted lines and the
`found` flag of `ProcessExactAction`, or a panic / exit from a command. -/
inductive RunResult where
  | ok : GameState → List String → Bool → RunResult
  | panicked : RunResult
  | exited : List String → RunResult
deriving DecidableEq, Repr

/-- The loop of Go `ProcessExactAction` over `state.Actions`, carried out on
the suffix `rest` starting at table index `i` (commands never modify the
action table, so the suffix stays valid): execute every action whose
verb/noun match and whose conditions pass; stop after the first executed
action that leaves `ContinueFlag` unset. -/
def processExactList (s : GameState) (verb noun : Nat) (i : Nat) (rest : List Action)
    (found : Bool) (out : List String) : RunResult :=
  match rest with
  | [] => .ok s out found
  | a :: rest' =>
    if a.verb = verb ∧ a.noun = noun then
      match checkConditions s a with
      | none => .panicked
      | some false => processExactList s verb noun (i + 1) rest' found out
      | some true =>
        match executeCommands s i with
        | .panicked => .panicked
        | .exited o => .exited (out ++ o)
        | .ok s' o =>
          if s'.continueFlag then processExactList s' verb noun (i + 1) rest' true (out ++ o)
          else .ok s' (out ++ o) true
    else processExactList s verb noun (i + 1) rest' found out

/-- Go `ProcessExactAction`. -/
def processExactAction (s : GameState) (verb noun : Nat) : RunResult :=
  processExactList s verb noun 0 s.actions false []

/-- Go `IsDark`: darkness bit set and item 9 neither carried nor in the
current room.  `&&` short-circuits, so `ItemLocations[9]` (a possible panic,
`none`) is only read when the darkness bit is set. -/
def isDark (s : GameState) : Option Bool :=
  if s.bitFlags &&& shl32 15 = 0 then some false
  else (s.itemLocations.get? 9).map fun loc =>
    decide (loc ≠ CARRIED ∧ loc ≠ s.currentRoom)

/-- Go `UpdateLightSource`, run once per turn: when item 9 is carried (and
not `IsDark`, which is implied by being carried), decrement `AltCounters[8]`;
at ≤ 0 set `LIGHTOUTBIT`, emit the exhaustion warning and destroy item 9;
at ≤ 10 emit the dim warning.  `none` models the `ItemLocations[9]` panic. -/
def updateLightSource (s : GameState) : Option (GameState × List String) :=
  match s.itemLocations.get? 9 with
  | none => none
  | some loc =>
    if loc = CARRIED then
      match isDark s with
      | none => none
      | some dark =>
        if dark then some (s, [])
        else
          let v := s.altCounters.getD 8 0 - 1
          let s1 := { s with altCounters := s.altCounters.set 8 v }
          if v ≤ 0 then
            some ({ s1 with bitFlags := s1.bitFlags ||| shl32 16,
                            itemLocations := s1.itemLocations.set 9 DESTROYED },
                  ["Light has run out!"])
          else if v ≤ 10 then some (s1, ["Light is getting dim."])
          else some (s1, [])
    else some (s, [])

/-- Iterate the per-turn light update `n` times (output discarded),
propagating a panic as `none`. -/
def iterateLight : Nat → GameState → Option GameState
  | 0, s => some s
  | n + 1, s =>
    match updateLightSource s with
    | none => none
    | some (s', _) => iterateLight n s'

/-- Go `SaveGame`, embedded on the decoded file contents: the sequence of
integers written (adventure number, current room, counter, flags, light
counter, 6 alt rooms, 8 alt counters, `NumItems + 1` item locations).  The
filename prompt and the `os.Create` error path do not touch `GameState`. -/
def saveGame (s : GameState) : List Int :=
  s.header.adventureNumber :: s.currentRoom :: s.counter :: (s.bitFlags : Int) ::
    s.altCounters.getD 8 0 ::
    ((List.range 6).map (fun i => s.altRooms.getD i 0) ++
     ((List.range 8).map (fun i => s.altCounters.getD i 0) ++
      (List.range (s.header.numItems + 1)).map (fun i => s.itemLocations.getD i 0)))

/-- A `for` loop of Go `LoadGame` writing `count` scanned values into
`arr[idx], arr[idx+1], ...`: returns the (possibly partially updated) array,
the remaining input and whether all `count` values were read. -/
def loadSlots (arr : List Int) (idx : Nat) (count : Nat) (lines : List Int) :
    List Int × List Int × Bool :=
  match count, lines with
  | 0, ls => (arr, ls, true)
  | _ + 1, [] => (arr, [], false)
  | c + 1, v :: rest => loadSlots (arr.set idx v) (idx + 1) c rest

/-- Go `LoadGame`, embedded on the decoded save-file lines.  Each
`scanner.Scan` failure reports an error and returns immediately, keeping
whatever fields were already overwritten; an adventure-number mismatch
returns before any field is written.  `strconv` errors are ignored by the Go
code (`ParseUint` clamps the flags read to 0 on failure, modelled by the
range test).  The `os.Open` error path never reaches this function. -/
def loadGame (s : GameState) (lines : List Int) : GameState × List String :=
  match lines with
  | [] => (s, ["Error reading save file."])
  | adv :: lines1 =>
    if adv ≠ s.header.adventureNumber then
      (s, ["This save file is for a different adventure."])
    else
      match lines1 with
      | [] => (s, ["Error reading save file."])
      | room :: lines2 =>
        let sA := { s with currentRoom := room }
        match lines2 with
        | [] => (sA, ["Error reading save file."])
        | cnt :: lines3 =>
          let sB := { sA with counter := cnt }
          match lines3 with
          | [] => (sB, ["Error reading save file."])
          | fl :: lines4 =>
            let sC := { sB with bitFlags := if 0 ≤ fl ∧ fl < 4294967296 then fl.toNat else 0 }
            match lines4 with
            | [] => (sC, ["Error reading save file."])
            | lt :: lines5 =>
              let sD := { sC with altCounters := sC.altCounters.set 8 lt }
              match loadSlots sD.altRooms 0 6 lines5 with
              | (ar, lines6, ok1) =>
                let sE := { sD with altRooms := ar }
                if ok1 = false then (sE, ["Error reading save file."])
                else
                  match loadSlots sE.altCounters 0 8 lines6 with
                  | (ac, lines7, ok2) =>
                    let sF := { sE with altCounters := ac }
                    if ok2 = false then (sF, ["Error reading save file."])
                    else
                      match loadSlots sF.itemLocations 0 (s.header.numItems + 1) lines7 with
                      | (il, _, ok3) =>
                        let sG := { sF with itemLocations := il }
                        if ok3 = false then (sG, ["Error reading save file."])
                        else ({ sG with displayedRoom := false }, ["Game loaded."])

/-! ## Helper lemmas -/

/-- `l.get?` succeeds below the length and returns the `getD` value. -/
theorem get?_eq_some_getD {α : Type} : ∀ (l : List α) (i : Nat) (d : α), i < l.length →
    l.get? i = some (l.getD i d)
  | _ :: _, 0, _, _ => rfl
  | _ :: t, i + 1, d, h => get?_eq_some_getD t i d (Nat.lt_of_succ_lt_succ h)

/-- Writing back the value already stored leaves the list unchanged. -/
theorem set_self : ∀ (l : List Int) (i : Nat) (v : Int), l.get? i = some v →
    l.set i v = l
  | _ :: _, 0, _, h => by simp_all
  | _ :: t, i + 1, v, h => by
    simpa [List.set] using set_self t i v h
  | [], _, _, h => by simp at h

/-- `getD` at the freshly written index. -/
theorem getD_set_self : ∀ (l : List Int) (i : Nat) (v d : Int), i < l.length →
    (l.set i v).getD i d = v
  | _ :: _, 0, _, _, _ => rfl
  | _ :: t, i + 1, v, d, h => getD_set_self t i v d (Nat.lt_of_succ_lt_succ h)

/-- `loadSlots` run over exactly the values currently stored leaves the array
unchanged and consumes the corresponding prefix of the input. -/
theorem loadSlots_self : ∀ (suf : List Int) (arr : List Int) (idx : Nat) (rest : List Int),
    (∀ k, k < suf.length → arr.get? (idx + k) = suf.get? k) →
    loadSlots arr idx suf.length (suf ++ rest) = (arr, rest, true)
  | [], arr, idx, rest, _ => by simp [loadSlots]
  | v :: suf, arr, idx, rest, h => by
    have h0 : arr.get? idx = some v := by simpa using h 0 (Nat.succ_pos _)
    have harr : arr.set idx v = arr := set_self arr idx v h0
    show loadSlots (arr.set idx v) (idx + 1) suf.length (suf ++ rest) = (arr, rest, true)
    rw [harr]
    exact loadSlots_self suf arr (idx + 1) rest fun k hk => by
      have := h (k + 1) (Nat.succ_lt_succ hk)
      simpa [Nat.add_assoc, Nat.add_comm 1 k] using this

/-- The `(List.range n).map (getD ·)` pattern of `SaveGame` reproduces the
prefix of the serialized list. -/
theorem range_map_getD_take : ∀ (n : Nat) (l : List Int), n ≤ l.length →
    (List.range n).map (fun i => l.getD i 0) = l.take n := by
  intro n
  induction n with
  | zero => intro l _; simp
  | succ m ih =>
    intro l h
    have hm : m ≤ l.length := Nat.le_of_succ_le h
    have hlt : m < l.length := h
    rw [List.range_succ, List.map_append, ih l hm, List.take_succ]
    simp [List.getD_eq_getD_get?, List.getElem?_eq_getElem hlt]

/-! ## Concrete states used by the counterexamples and witnesses -/

/-- A representative well-formed state (loader-shaped lengths): 10 items,
items 1, 2 and 9 carried, `maxCarry` 2, one action row. -/
def wfState : GameState :=
  { header := { numItems := 9, numRooms := 5, maxCarry := 2, treasures := 1,
                lightTime := 125, treasureRoom := 2, adventureNumber := 42 },
    items := List.replicate 10 ⟨"thing", 1⟩,
    actions := [⟨5, 3, [20, 40, 60, 0, 0], [0, 0]⟩],
    messages := ["", "hello", "world"],
    currentRoom := 1,
    itemLocations := [0, 255, 255, 1, 2, 3, 0, 4, 5, 255],
    bitFlags := 5,
    counter := 7,
    altCounters := [0, 1, 2, 3, 4, 5, 6, 7, 125],
    altRooms := [0, 1, 2, 3, 4, 5],
    continueFlag := false, displayedRoom := false, currentAction := 0 }

/-- The CONT scenario of the claim: action A (verb 5, noun 0) issues CONT
(command pair `73*150 = 10950`); B (verb 0, noun 0) has a failing condition
(`144 = 7*20+4`: player in room 7, but the player is in room 1); C (verb 0,
noun 0) passes and displays message 1 (command pair `1*150 = 150`). -/
def contScenario : GameState :=
  { header := { numItems := 0, numRooms := 1, maxCarry := 1, treasures := 1,
                lightTime := 10, treasureRoom := 0, adventureNumber := 1 },
    items := [⟨"", 0⟩],
    actions := [⟨5, 0, [0, 0, 0, 0, 0], [10950, 0]⟩,
                ⟨0, 0, [144, 0, 0, 0, 0], [0, 0]⟩,
                ⟨0, 0, [0, 0, 0, 0, 0], [150, 0]⟩],
    messages := ["", "CCC"],
    currentRoom := 1,
    itemLocations := [0],
    bitFlags := 0, counter := 0,
    altCounters := [0, 0, 0, 0, 0, 0, 0, 0, 0], altRooms := [0, 0, 0, 0, 0, 0],
    continueFlag := false, displayedRoom := false, currentAction := 0 }

/-- Light carried (item 9 at `CARRIED`), light-exhausted flag (bit 16)
already set, 50 turns of light left. -/
def lampFlagSetState : GameState :=
  { wfState with
    itemLocations := [0, 1, 1, 1, 2, 3, 0, 4, 5, 255],
    bitFlags := 65536,
    altCounters := [0, 0, 0, 0, 0, 0, 0, 0, 50] }

/-- Light carried, all flags clear, `lightTime = 125` turns left: the
initial state of the light-depletion scenario. -/
def light125State : GameState :=
  { wfState with
    itemLocations := [0, 1, 1, 1, 2, 3, 0, 4, 5, 255],
    bitFlags := 0,
    altCounters := [0, 0, 0, 0, 0, 0, 0, 0, 125] }

/-- Counter at 0, condition slot 0 carrying parameter 1 (`20 = 1*20+0`). -/
def counterState : GameState :=
  { wfState with
    actions := [⟨0, 0, [20, 0, 0, 0, 0], [0, 0]⟩],
    counter := 0 }

/-- State for the truncated-load counterexample: room 3, adventure 42. -/
def truncLoadState : GameState := { wfState with currentRoom := 3 }

/-- Two items (`numItems = 1`), condition slot 0 carrying parameter 2
(`40 = 2*20+0`), which is out of range for the item table. -/
def shortTableState : GameState :=
  { header := { numItems := 1, numRooms := 1, maxCarry := 1, treasures := 1,
                lightTime := 10, treasureRoom := 0, adventureNumber := 1 },
    items := [⟨"", 0⟩, ⟨"", 3⟩],
    actions := [⟨0, 0, [40, 0, 0, 0, 0], [0, 0]⟩],
    messages := ["", ""],
    currentRoom := 1,
    itemLocations := [0, 3],
    bitFlags := 0, counter := 0,
    altCounters := [0, 0, 0, 0, 0, 0, 0, 0, 0], altRooms := [0, 0, 0, 0, 0, 0],
    continueFlag := false, displayedRoom := false, currentAction := 0 }

/-- A state whose message table reaches index 100 (`MSG100`), so that
command value 150 would have a message to display. -/
def msg100State : GameState :=
  { wfState with messages := List.replicate 100 "" ++ ["MSG100"] }

/-- Like `wfState` but with `maxCarry = 3`, matching the carried count. -/
def atCapacityState : GameState :=
  { wfState with header := { wfState.header with maxCarry := 3 } }

/-! ## Claim theorems -/

/-- C1: the claim (and the engine document in the repository) states that
after an action issues CONT, the dispatcher resumes scanning from the next
action, restricted to verb=0/noun=0 continuation actions, re-checking
conditions, so action C of the scenario must execute.  The code does not do
this: `ProcessExactAction` keeps scanning only for the player's own
verb/noun, so on `contScenario` (A issues CONT, B fails its condition, C
passes) the entire dispatch of verb 5 / noun 0 produces *no* output — C's
message `"CCC"` (message 1) is never displayed — and the only state change
is the leaked `continueFlag`. -/
theorem c1_cont_player_scan :
    processExactAction contScenario 5 0 =
      RunResult.ok { contScenario with continueFlag := true } [] true ∧
    contScenario.messages.get? 1 = some "CCC" := by
  exact ⟨rfl, rfl⟩

/-- C6: an out-of-range item index in a condition or command parameter does
not clamp or no-op as claimed; the Go code indexes `ItemLocations` without a
bounds check, so condition 1 (HAS) with parameter 2 on a 2-entry item table
panics (terminating the session), as does command 55 (destroy item) whose
parameter 2 comes from condition slot 0 (`40 = 2*20`). -/
theorem c6_index_panic :
    evaluateCondition shortTableState 1 2 = none ∧
    executeCommand shortTableState 55 0 = CmdResult.panicked := by
  exact ⟨rfl, rfl⟩

/-- C3 counterexample: the claim says `altCounters[8]` is decremented
exactly when item 9 is carried *and* bit 16 is clear.  On
`lampFlagSetState` (item 9 carried, bit 16 set, 50 turns left) the code
still decrements the counter to 49. -/
theorem c3_light_counterexample :
    updateLightSource lampFlagSetState =
      some ({ lampFlagSetState with altCounters := [0, 0, 0, 0, 0, 0, 0, 0, 49] }, []) ∧
    lampFlagSetState.bitFlags &&& shl32 16 ≠ 0 ∧
    lampFlagSetState.altCounters.getD 8 0 = 50 := by
  exact ⟨rfl, by decide, rfl⟩

/-- C4 counterexample: from counter 0, opcode 83 with parameter 1 yields
counter −1 (the floor), and the decrement opcode 77 then yields −2 — the
claimed invariant `counter ≥ -1` does not survive opcode 77. -/
theorem c4_counter_counterexample :
    seqCmd (executeCommand counterState 83 0) (fun s1 => executeCommand s1 77 0) =
      CmdResult.ok { counterState with counter := -2 } [] ∧
    ¬ (-1 : Int) ≤ ({ counterState with counter := -2 } : GameState).counter := by
  exact ⟨rfl, by decide⟩

/-- C5 counterexample: loading a save file that matches the adventure
number but is truncated after the room value overwrites `currentRoom`
(3 becomes 7) even though the load fails — the GameState is not left
untouched on a load failure. -/
theorem c5_load_counterexample :
    loadGame truncLoadState [42, 7] =
      ({ truncLoadState with currentRoom := 7 }, ["Error reading save file."]) ∧
    truncLoadState.currentRoom = 3 := by
  exact ⟨rfl, rfl⟩

/-- C9 counterexample: the claim says every command value in 102–151
displays message value−50, but the code only handles 102–149; command 150
falls through the switch and displays nothing, although message 100
exists (`MSG100`). -/
theorem c9_message_counterexample :
    executeCommand msg100State 150 0 = CmdResult.ok msg100State [] ∧
    msg100State.messages.get? 100 = some "MSG100" := by
  exact ⟨rfl, rfl⟩

/-- C10: for every item number ≤ 0 or above `numItems`, `GetItem` and
`DropItem` reject the request up front: they emit only the failure message
and return the state completely unchanged, so item 0 and out-of-bounds
indices can never be picked up or dropped. -/
theorem c10_reject_invalid_item (s : GameState) (n : Int)
    (h : n ≤ 0 ∨ (s.header.numItems : Int) < n) :
    getItem s n = (s, ["I don\x27t see that here."]) ∧
    dropItem s n = (s, ["I don\x27t have that."]) := by
  constructor
  · unfold getItem
    rw [if_pos h]
  · unfold dropItem
    rw [if_pos h]

/-- Witness for C10 at item number 0 of `wfState`. -/
theorem c10_reject_invalid_item_witness :
    getItem wfState 0 = (wfState, ["I don\x27t see that here."]) ∧
    dropItem wfState 0 = (wfState, ["I don\x27t have that."]) :=
  c10_reject_invalid_item wfState 0 (Or.inl (by decide))

/-- C8: when the carried count already equals `MaxCarry`, `GetItem` leaves
the state unchanged for every item number (in particular for an item in the
current room); and `DropItem` of an item that is not carried leaves the
state unchanged. -/
theorem c8_get_drop_guards (s : GameState) (n m : Int)
    (hc : countCarried s = s.header.maxCarry)
    (hm : s.itemLocations.getD m.toNat 0 ≠ CARRIED) :
    (getItem s n).1 = s ∧ (dropItem s m).1 = s := by
  constructor
  · unfold getItem
    by_cases h1 : n ≤ 0 ∨ (s.header.numItems : Int) < n
    · rw [if_pos h1]
    · rw [if_neg h1]
      by_cases h2 : s.itemLocations.getD n.toNat 0 ≠ s.currentRoom
      · rw [if_pos h2]
      · rw [if_neg h2, if_pos (Nat.le_of_eq hc.symm)]
  · unfold dropItem
    by_cases h1 : m ≤ 0 ∨ (s.header.numItems : Int) < m
    · rw [if_pos h1]
    · rw [if_neg h1, if_pos hm]

/-- Witness for C8 on `atCapacityState` (3 items carried, `maxCarry` 3;
item 3 lies in room 1, the current room, and is not carried). -/
theorem c8_get_drop_guards_witness :
    (getItem atCapacityState 3).1 = atCapacityState ∧
    (dropItem atCapacityState 3).1 = atCapacityState :=
  c8_get_drop_guards atCapacityState 3 3 (by decide) (by decide)

/-- C5 amended: on the two failure modes that strike before any field is
written — an empty (unreadable) file and an adventure-number mismatch —
`LoadGame` leaves the state untouched; truncation after the adventure-number
check can partially overwrite the state (see the counterexample). -/
theorem c5_load_amended (s : GameState) (a : Int) (rest : List Int)
    (hne : a ≠ s.header.adventureNumber) :
    loadGame s [] = (s, ["Error reading save file."]) ∧
    loadGame s (a :: rest) = (s, ["This save file is for a different adventure."]) := by
  refine ⟨rfl, ?_⟩
  show (if a ≠ s.header.adventureNumber then _ else _) = _
  rw [if_pos hne]

/-- Witness for C5 amended: `wfState` is adventure 42, the file starts
with 0. -/
theorem c5_load_amended_witness :
    loadGame wfState [] = (wfState, ["Error reading save file."]) ∧
    loadGame wfState [0] = (wfState, ["This save file is for a different adventure."]) :=
  c5_load_amended wfState 0 [] (by decide)

/-- A lower bound on every member of a list is a lower bound on every `getD`
lookup with default 0. -/
theorem getD_ge_of_forall (l : List Int) (h : ∀ x ∈ l, -1 ≤ x) (i : Nat) :
    -1 ≤ l.getD i 0 := by
  rw [List.getD_eq_getD_get?]
  cases hg : l.get? i
  · simp
  · rename_i v
    simpa using h v (List.get?_mem hg)

/-- Value of a `getD` lookup after a `set`: either the old value or the
newly written one. -/
theorem getD_set_or (l : List Int) (i j : Nat) (v d : Int) :
    (l.set i v).getD j d = l.getD j d ∨ (l.set i v).getD j d = v := by
  rw [List.getD_eq_getD_get?, List.getD_eq_getD_get?, List.get?_set]
  split
  · cases h : l.get? j <;> simp [h]
  · left; rfl

/-! Unfolding equations of `executeCommandCore` at the fixed opcodes used in
the claim proofs (each holds by definitional reduction of the literal). -/

theorem core54_eq (s : GameState) (pos p : Nat) (a? : Option Action) :
    executeCommandCore s 54 pos p a? =
      .ok { s with currentRoom := (p : Int), displayedRoom := false } [] := rfl

theorem core55_eq (s : GameState) (pos p : Nat) (a? : Option Action) :
    executeCommandCore s 55 pos p a? = setItemLoc s p DESTROYED := rfl

theorem core58_eq (s : GameState) (pos p : Nat) (a? : Option Action) :
    executeCommandCore s 58 pos p a? =
      .ok { s with bitFlags := s.bitFlags ||| shl32 p } [] := rfl

theorem core62_eq (s : GameState) (pos p : Nat) (a : Action) :
    executeCommandCore s 62 pos p (some a) =
      (if pos < 5 then
        match a.conditions.get? (pos + 1) with
        | none => CmdResult.panicked
        | some c => setItemLoc s p ((c / 20 : Nat) : Int)
      else .ok s []) := rfl

theorem core72_eq (s : GameState) (pos p : Nat) (a : Action) :
    executeCommandCore s 72 pos p (some a) =
      (if pos < 4 then
        if p < s.itemLocations.length ∧ (a.conditions.getD (pos + 1) 0) / 20 < s.itemLocations.length then
          .ok { s with itemLocations := (s.itemLocations.set p (s.itemLocations.getD ((a.conditions.getD (pos + 1) 0) / 20) 0)).set ((a.conditions.getD (pos + 1) 0) / 20) (s.itemLocations.getD p 0) } []
        else .panicked
      else .ok s []) := rfl

theorem core74_eq (s : GameState) (pos p : Nat) (a? : Option Action) :
    executeCommandCore s 74 pos p a? = setItemLoc s p CARRIED := rfl

theorem core75_eq (s : GameState) (pos p : Nat) (a : Action) :
    executeCommandCore s 75 pos p (some a) =
      (if pos < 4 then
        if (a.conditions.getD (pos + 1) 0) / 20 < s.itemLocations.length then
          setItemLoc s p (s.itemLocations.getD ((a.conditions.getD (pos + 1) 0) / 20) 0)
        else .panicked
      else .ok s []) := rfl

theorem core79_eq (s : GameState) (pos p : Nat) (a? : Option Action) :
    executeCommandCore s 79 pos p a? = .ok { s with counter := (p : Int) } [] := rfl

theorem core150_eq (s : GameState) (pos p : Nat) (a? : Option Action) :
    executeCommandCore s 150 pos p a? = .ok s [] := rfl

theorem core151_eq (s : GameState) (pos p : Nat) (a? : Option Action) :
    executeCommandCore s 151 pos p a? = .ok s [] := rfl

theorem core81_eq (s : GameState) (pos p : Nat) (a? : Option Action) :
    executeCommandCore s 81 pos p a? =
      (if p < s.altCounters.length then
        .ok { s with counter := s.altCounters.getD p 0,
                     altCounters := s.altCounters.set p s.counter } []
      else .panicked) := rfl

theorem core82_eq (s : GameState) (pos p : Nat) (a? : Option Action) :
    executeCommandCore s 82 pos p a? =
      .ok { s with counter := s.counter + (p : Int) } [] := rfl

theorem core83_eq (s : GameState) (pos p : Nat) (a? : Option Action) :
    executeCommandCore s 83 pos p a? =
      .ok { s with counter :=
        if s.counter - (p : Int) < -1 then -1 else s.counter - (p : Int) } [] := rfl

/-- C4 amended: `counter ≥ -1` is preserved by the subtract opcode 83
(which floors at −1 regardless of the starting value), by the add opcode 82
(its parameter is a non-negative decoded field) and by the counter-swap
opcode 81 (when every alternate counter is ≥ −1, and the swap keeps the
alternate table ≥ −1 as well) — but not by the decrement opcode 77 (see the
counterexample), so `counter ≥ -1` is not an invariant of reachable
states. -/
theorem c4_counter_amended (s : GameState) (pos : Nat)
    (hc : -1 ≤ s.counter) (hac : ∀ i, -1 ≤ s.altCounters.getD i 0) :
    (∀ s' out, executeCommand s 83 pos = CmdResult.ok s' out → -1 ≤ s'.counter) ∧
    (∀ s' out, executeCommand s 82 pos = CmdResult.ok s' out → -1 ≤ s'.counter) ∧
    (∀ s' out, executeCommand s 81 pos = CmdResult.ok s' out →
      -1 ≤ s'.counter ∧ ∀ i, -1 ≤ s'.altCounters.getD i 0) := by
  have step83 : ∀ (p : Nat) (a? : Option Action) (s' : GameState) (out : List String),
      executeCommandCore s 83 pos p a? = CmdResult.ok s' out → -1 ≤ s'.counter := by
    intro p a? s' out h
    rw [core83_eq] at h
    cases h
    dsimp only
    split <;> omega
  have step82 : ∀ (p : Nat) (a? : Option Action) (s' : GameState) (out : List String),
      executeCommandCore s 82 pos p a? = CmdResult.ok s' out → -1 ≤ s'.counter := by
    intro p a? s' out h
    rw [core82_eq] at h
    cases h
    dsimp only
    omega
  have step81 : ∀ (p : Nat) (a? : Option Action) (s' : GameState) (out : List String),
      executeCommandCore s 81 pos p a? = CmdResult.ok s' out →
        -1 ≤ s'.counter ∧ ∀ i, -1 ≤ s'.altCounters.getD i 0 := by
    intro p a? s' out h
    rw [core81_eq] at h
    split at h
    · cases h
      refine ⟨hac _, fun i => ?_⟩
      rcases getD_set_or s.altCounters p i s.counter 0 with heq | heq <;> rw [heq]
      · exact hac i
      · exact hc
    · exact absurd h (by simp)
  refine ⟨?_, ?_, ?_⟩ <;> intro s' out h <;> unfold executeCommand at h
  · split at h
    · cases hact : s.actions.get? s.currentAction <;> rw [hact] at h
      · exact absurd h (by simp)
      · exact step83 _ _ _ _ h
    · exact step83 _ _ _ _ h
  · split at h
    · cases hact : s.actions.get? s.currentAction <;> rw [hact] at h
      · exact absurd h (by simp)
      · exact step82 _ _ _ _ h
    · exact step82 _ _ _ _ h
  · split at h
    · cases hact : s.actions.get? s.currentAction <;> rw [hact] at h
      · exact absurd h (by simp)
      · exact step81 _ _ _ _ h
    · exact step81 _ _ _ _ h

/-- Witness for C4 amended on `wfState` (counter 7, alternate counters
0..7 and 125), at command position 0 (parameter 1): subtract yields 6,
add yields 8, swap installs alternate counter 1. -/
theorem c4_counter_amended_witness :
    -1 ≤ ({ wfState with counter := 6 } : GameState).counter ∧
    -1 ≤ ({ wfState with counter := 8 } : GameState).counter ∧
    -1 ≤ ({ wfState with counter := 1, altCounters := [0, 7, 2, 3, 4, 5, 6, 7, 125] } : GameState).counter := by
  have h := c4_counter_amended wfState 0 (by decide)
    (getD_ge_of_forall wfState.altCounters (by decide))
  exact ⟨h.1 _ [] rfl, h.2.1 _ [] rfl, (h.2.2 _ [] rfl).1⟩

/-- C2: at every executing command sub-slot (positions 0, 1 and 2 are the
ones `ExecuteCommands` produces), the command's parameter is the decoded
parameter `Conditions[pos] / 20` of the condition slot aligned with the
position — never a value embedded in the command code itself — and the
two-parameter opcodes 62 (move item to room), 72 (swap item locations) and
75 (copy location) read their second parameter from the next condition
slot, `Conditions[pos+1] / 20`.  Shown for the parameterised opcodes
54/79/82/58/55/74 and all three two-parameter opcodes; the remaining
parameterised opcodes (52, 53, 59, 60, 81, 83, 87) receive the identical
`parameter` argument computed once in `executeCommand`. -/
theorem c2_parameter_threading (s : GameState) (a : Action) (pos : Nat) (c2 : Nat)
    (ha : s.actions.get? s.currentAction = some a) (hpos : pos < 3)
    (hc2 : a.conditions.get? (pos + 1) = some c2) :
    (executeCommand s 54 pos =
      .ok { s with currentRoom := (((a.conditions.getD pos 0) / 20 : Nat) : Int),
                   displayedRoom := false } []) ∧
    (executeCommand s 79 pos =
      .ok { s with counter := (((a.conditions.getD pos 0) / 20 : Nat) : Int) } []) ∧
    (executeCommand s 82 pos =
      .ok { s with counter := s.counter + (((a.conditions.getD pos 0) / 20 : Nat) : Int) } []) ∧
    (executeCommand s 58 pos =
      .ok { s with bitFlags := s.bitFlags ||| shl32 ((a.conditions.getD pos 0) / 20) } []) ∧
    (executeCommand s 55 pos = setItemLoc s ((a.conditions.getD pos 0) / 20) DESTROYED) ∧
    (executeCommand s 74 pos = setItemLoc s ((a.conditions.getD pos 0) / 20) CARRIED) ∧
    (executeCommand s 62 pos =
      setItemLoc s ((a.conditions.getD pos 0) / 20) ((c2 / 20 : Nat) : Int)) ∧
    (executeCommand s 75 pos =
      (if c2 / 20 < s.itemLocations.length then
        setItemLoc s ((a.conditions.getD pos 0) / 20) (s.itemLocations.getD (c2 / 20) 0)
      else CmdResult.panicked)) ∧
    (executeCommand s 72 pos =
      (if (a.conditions.getD pos 0) / 20 < s.itemLocations.length ∧ c2 / 20 < s.itemLocations.length then
        CmdResult.ok { s with itemLocations := (s.itemLocations.set ((a.conditions.getD pos 0) / 20) (s.itemLocations.getD (c2 / 20) 0)).set (c2 / 20) (s.itemLocations.getD ((a.conditions.getD pos 0) / 20) 0) } []
      else CmdResult.panicked)) := by
  have h5 : pos < 5 := by omega
  have h4 : pos < 4 := by omega
  have hw : ∀ cmd, executeCommand s cmd pos =
      executeCommandCore s cmd pos ((a.conditions.getD pos 0) / 20) (some a) := by
    intro cmd
    unfold executeCommand
    rw [if_pos h5, ha]
  have hgd : a.conditions.getD (pos + 1) 0 = c2 := by
    rw [List.getD_eq_getD_get?, hc2]
    rfl
  refine ⟨?_, ?_, ?_, ?_, ?_, ?_, ?_, ?_, ?_⟩
  · rw [hw, core54_eq]
  · rw [hw, core79_eq]
  · rw [hw, core82_eq]
  · rw [hw, core58_eq]
  · rw [hw, core55_eq]
  · rw [hw, core74_eq]
  · rw [hw, core62_eq, if_pos h5, hc2]
  · rw [hw, core75_eq, if_pos h4, hgd]
  · rw [hw, core72_eq, if_pos h4, hgd]

/-- Witness for C2 on `wfState` (condition slots `[20, 40, 60, 0, 0]`,
position 0): parameter `20/20 = 1` and second parameter `40/20 = 2`. -/
theorem c2_parameter_threading_witness :
    executeCommand wfState 54 0 =
      CmdResult.ok { wfState with currentRoom := 1, displayedRoom := false } [] ∧
    executeCommand wfState 62 0 = setItemLoc wfState 1 2 := by
  have h := c2_parameter_threading wfState ⟨5, 3, [20, 40, 60, 0, 0], [0, 0]⟩ 0 40
    rfl (by decide) rfl
  exact ⟨h.1, h.2.2.2.2.2.2.1⟩

/-- C9 amended: command values 1–51 display message `cmd` and values
102–149 display message `cmd−50`, purely (the state is unchanged); the
values 150 and 151, which the claim also assigned to the second range, fall
through the command switch and display nothing (still leaving the state
unchanged). -/
theorem c9_message_amended (s : GameState) (a : Action) (cmd pos : Nat)
    (ha : s.actions.get? s.currentAction = some a) (hpos : pos < 5) :
    (1 ≤ cmd → cmd ≤ 51 → cmd < s.messages.length →
      executeCommand s cmd pos = CmdResult.ok s [s.messages.getD cmd ""]) ∧
    (102 ≤ cmd → cmd ≤ 149 → cmd - 50 < s.messages.length →
      executeCommand s cmd pos = CmdResult.ok s [s.messages.getD (cmd - 50) ""]) ∧
    (cmd = 150 → executeCommand s cmd pos = CmdResult.ok s []) ∧
    (cmd = 151 → executeCommand s cmd pos = CmdResult.ok s []) := by
  have hw : executeCommand s cmd pos =
      executeCommandCore s cmd pos ((a.conditions.getD pos 0) / 20) (some a) := by
    unfold executeCommand
    rw [if_pos hpos, ha]
  refine ⟨?_, ?_, ?_, ?_⟩
  · intro h1 h2 hlen
    rw [hw]
    unfold executeCommandCore
    rw [if_pos ⟨h1, h2⟩, get?_eq_some_getD s.messages cmd "" hlen]
  · intro h1 h2 hlen
    rw [hw]
    unfold executeCommandCore
    rw [if_neg (by omega), if_pos ⟨h1, h2⟩, get?_eq_some_getD s.messages (cmd - 50) "" hlen]
  · intro h1
    subst h1
    rw [hw, core150_eq]
  · intro h1
    subst h1
    rw [hw, core151_eq]

/-- Witness for C9 amended on `msg100State` (101 messages): command 1
displays message 1, command 103 displays message 53, command 150 displays
nothing. -/
theorem c9_message_amended_witness :
    executeCommand msg100State 1 0 = CmdResult.ok msg100State [""] ∧
    executeCommand msg100State 103 0 = CmdResult.ok msg100State [""] ∧
    executeCommand msg100State 150 0 = CmdResult.ok msg100State [] := by
  have h1 := c9_message_amended msg100State ⟨5, 3, [20, 40, 60, 0, 0], [0, 0]⟩ 1 0
    rfl (by decide)
  have h2 := c9_message_amended msg100State ⟨5, 3, [20, 40, 60, 0, 0], [0, 0]⟩ 103 0
    rfl (by decide)
  have h3 := c9_message_amended msg100State ⟨5, 3, [20, 40, 60, 0, 0], [0, 0]⟩ 150 0
    rfl (by decide)
  exact ⟨h1.1 (by decide) (by decide) (by decide),
         h2.2.1 (by decide) (by decide) (by decide),
         h3.2.2.1 rfl⟩

/-- Setting a bit with `|||` makes the corresponding mask test nonzero. -/
theorem or_shl32_16_ne (x : Nat) : (x ||| shl32 16) &&& shl32 16 ≠ 0 := by
  have hs : shl32 16 = 2 ^ 16 := rfl
  rw [hs, Nat.and_two_pow]
  simp [Nat.testBit_lor]
  intro _
  decide

/-- A carried light source makes `IsDark` false (its second conjunct
fails), whatever the darkness bit is. -/
theorem isDark_of_carried (s : GameState) (h9 : s.itemLocations.get? 9 = some CARRIED) :
    isDark s = some false := by
  unfold isDark
  split
  · rfl
  · rw [h9]
    simp [CARRIED]

/-- Full case analysis of one `UpdateLightSource` step, given the location
of item 9. -/
theorem updateLight_cases (s : GameState) (loc : Int)
    (h9 : s.itemLocations.get? 9 = some loc) :
    updateLightSource s =
      (if loc = CARRIED then
        (if s.altCounters.getD 8 0 ≤ 1 then
          some ({ s with altCounters := s.altCounters.set 8 (s.altCounters.getD 8 0 - 1),
                         bitFlags := s.bitFlags ||| shl32 16,
                         itemLocations := s.itemLocations.set 9 DESTROYED },
                ["Light has run out!"])
        else if s.altCounters.getD 8 0 ≤ 11 then
          some ({ s with altCounters := s.altCounters.set 8 (s.altCounters.getD 8 0 - 1) },
                ["Light is getting dim."])
        else
          some ({ s with altCounters := s.altCounters.set 8 (s.altCounters.getD 8 0 - 1) }, []))
      else some (s, [])) := by
  unfold updateLightSource
  rw [h9]
  dsimp only
  by_cases hl : loc = CARRIED
  · rw [if_pos hl, if_pos hl, isDark_of_carried s (hl ▸ h9)]
    dsimp only
    rw [if_neg (by decide : ¬ ((false : Bool) = true))]
    by_cases h1 : s.altCounters.getD 8 0 ≤ 1
    · rw [if_pos (show s.altCounters.getD 8 0 - 1 ≤ 0 by omega), if_pos h1]
    · rw [if_neg (show ¬ s.altCounters.getD 8 0 - 1 ≤ 0 by omega), if_neg h1]
      by_cases h2 : s.altCounters.getD 8 0 ≤ 11
      · rw [if_pos (show s.altCounters.getD 8 0 - 1 ≤ 10 by omega), if_pos h2]
      · rw [if_neg (show ¬ s.altCounters.getD 8 0 - 1 ≤ 10 by omega), if_neg h2]
  · rw [if_neg hl, if_neg hl]

/-- While more turns of light remain than the number of steps taken, the
iterated light update only counts `altCounters[8]` down, leaving every
other field (including the flags) untouched. -/
theorem iterateLight_countdown (k : Nat) : ∀ (s : GameState),
    s.itemLocations.get? 9 = some CARRIED → 8 < s.altCounters.length →
    (k : Int) < s.altCounters.getD 8 0 →
    iterateLight k s =
      some { s with altCounters := s.altCounters.set 8 (s.altCounters.getD 8 0 - k) } := by
  induction k with
  | zero =>
    intro s h9 h8 _
    have hz : s.altCounters.getD 8 0 - ((0 : Nat) : Int) = s.altCounters.getD 8 0 := by simp
    show some s = _
    rw [hz, set_self _ _ _ (get?_eq_some_getD _ 8 0 h8)]
  | succ n ih =>
    intro s h9 h8 hk
    have hv : ¬ s.altCounters.getD 8 0 ≤ 1 := by
      have hx : ((n : Int) + 1) < s.altCounters.getD 8 0 := by push_cast at hk ⊢; omega
      omega
    have hstep := updateLight_cases s CARRIED h9
    rw [if_pos rfl, if_neg hv] at hstep
    have hrun := ih { s with altCounters := s.altCounters.set 8 (s.altCounters.getD 8 0 - 1) }
      h9 (by dsimp only; rw [List.length_set]; exact h8)
      (by dsimp only; rw [getD_set_self _ _ _ _ h8]; push_cast at hk ⊢; omega)
    have harith : s.altCounters.getD 8 0 - 1 - (n : Int) =
        s.altCounters.getD 8 0 - ((n + 1 : Nat) : Int) := by
      push_cast
      ring
    rw [iterateLight, hstep]
    by_cases h2 : s.altCounters.getD 8 0 ≤ 11
    · rw [if_pos h2]
      dsimp only
      rw [hrun]
      dsimp only
      rw [getD_set_self _ _ _ _ h8, List.set_set, harith]
    · rw [if_neg h2]
      dsimp only
      rw [hrun]
      dsimp only
      rw [getD_set_self _ _ _ _ h8, List.set_set, harith]

/-- Running the light update for exactly the number of remaining turns
drains the counter to 0, sets `LIGHTOUTBIT` and destroys the light. -/
theorem iterateLight_exhaust (k : Nat) : ∀ (s : GameState),
    s.itemLocations.get? 9 = some CARRIED → 8 < s.altCounters.length →
    s.altCounters.getD 8 0 = (k : Int) + 1 →
    iterateLight (k + 1) s =
      some { s with altCounters := s.altCounters.set 8 0,
                    bitFlags := s.bitFlags ||| shl32 16,
                    itemLocations := s.itemLocations.set 9 DESTROYED } := by
  induction k with
  | zero =>
    intro s h9 h8 ha
    have hstep := updateLight_cases s CARRIED h9
    rw [if_pos rfl, if_pos (by omega : s.altCounters.getD 8 0 ≤ 1)] at hstep
    rw [iterateLight, hstep]
    dsimp only
    rw [show s.altCounters.getD 8 0 - 1 = 0 by omega]
    rfl
  | succ n ih =>
    intro s h9 h8 ha
    have hv : ¬ s.altCounters.getD 8 0 ≤ 1 := by
      push_cast at ha
      omega
    have hstep := updateLight_cases s CARRIED h9
    rw [if_pos rfl, if_neg hv] at hstep
    have hrun := ih { s with altCounters := s.altCounters.set 8 (s.altCounters.getD 8 0 - 1) }
      h9 (by dsimp only; rw [List.length_set]; exact h8)
      (by dsimp only; rw [getD_set_self _ _ _ _ h8]; push_cast at ha ⊢; omega)
    rw [iterateLight, hstep]
    by_cases h2 : s.altCounters.getD 8 0 ≤ 11
    · rw [if_pos h2]
      dsimp only
      rw [hrun]
      dsimp only
      rw [List.set_set]
    · rw [if_neg h2]
      dsimp only
      rw [hrun]
      dsimp only
      rw [List.set_set]

/-- C3 amended: each turn `altCounters[8]` is decremented exactly when the
light-source item (item 9) is carried — the light-exhausted flag is *not*
consulted (see the counterexample); the flag is set precisely when a
decrement lands at ≤ 0 (after which the item is destroyed, which is what
stops further decrements), and the warning output is as coded; and in the
`lightTime = 125` scenario with the light carried, the exhausted flag is
still clear after every `k ≤ 124` turns and first becomes set on the 125th
update (i.e. on turn 126 the player first observes it). -/
theorem c3_light_amended (s : GameState) (loc : Int) (k : Nat)
    (h8 : 8 < s.altCounters.length)
    (h9 : s.itemLocations.get? 9 = some loc)
    (hk : k ≤ 124) :
    ((updateLightSource s).map fun r => r.1.altCounters.getD 8 0) =
      some (s.altCounters.getD 8 0 - (if loc = CARRIED then 1 else 0)) ∧
    ((updateLightSource s).map fun r => decide (r.1.bitFlags &&& shl32 16 ≠ 0)) =
      some (decide (s.bitFlags &&& shl32 16 ≠ 0 ∨
        (loc = CARRIED ∧ s.altCounters.getD 8 0 ≤ 1))) ∧
    ((updateLightSource s).map fun r => r.2) =
      some (if loc = CARRIED ∧ s.altCounters.getD 8 0 ≤ 1 then ["Light has run out!"]
            else if loc = CARRIED ∧ s.altCounters.getD 8 0 ≤ 11 then ["Light is getting dim."]
            else []) ∧
    ((iterateLight k light125State).map fun t => decide (t.bitFlags &&& shl32 16 ≠ 0)) =
      some false ∧
    ((iterateLight 125 light125State).map fun t => decide (t.bitFlags &&& shl32 16 ≠ 0)) =
      some true := by
  have hcases := updateLight_cases s loc h9
  refine ⟨?_, ?_, ?_, ?_, ?_⟩
  · rw [hcases]
    by_cases hl : loc = CARRIED
    · rw [if_pos hl, if_pos hl]
      by_cases h1 : s.altCounters.getD 8 0 ≤ 1
      · rw [if_pos h1]
        simp only [Option.map_some']
        rw [getD_set_self _ _ _ _ h8]
      · rw [if_neg h1]
        by_cases h2 : s.altCounters.getD 8 0 ≤ 11
        · rw [if_pos h2]
          simp only [Option.map_some']
          rw [getD_set_self _ _ _ _ h8]
        · rw [if_neg h2]
          simp only [Option.map_some']
          rw [getD_set_self _ _ _ _ h8]
    · rw [if_neg hl, if_neg hl]
      simp
  · rw [hcases]
    by_cases hl : loc = CARRIED
    · by_cases h1 : s.altCounters.getD 8 0 ≤ 1
      · rw [if_pos hl, if_pos h1]
        simp only [Option.map_some']
        refine congrArg some ?_
        rw [decide_eq_decide]
        exact iff_of_true (or_shl32_16_ne s.bitFlags) (Or.inr ⟨hl, h1⟩)
      · rw [if_pos hl, if_neg h1]
        by_cases h2 : s.altCounters.getD 8 0 ≤ 11
        · rw [if_pos h2]
          simp only [Option.map_some']
          refine congrArg some ?_
          rw [decide_eq_decide]
          exact ⟨Or.inl, fun h => h.elim id fun hh => absurd hh.2 h1⟩
        · rw [if_neg h2]
          simp only [Option.map_some']
          refine congrArg some ?_
          rw [decide_eq_decide]
          exact ⟨Or.inl, fun h => h.elim id fun hh => absurd hh.2 h1⟩
    · rw [if_neg hl]
      simp only [Option.map_some']
      refine congrArg some ?_
      rw [decide_eq_decide]
      exact ⟨Or.inl, fun h => h.elim id fun hh => absurd hh.1 hl⟩
  · rw [hcases]
    by_cases hl : loc = CARRIED
    · by_cases h1 : s.altCounters.getD 8 0 ≤ 1
      · rw [if_pos hl, if_pos h1, if_pos (⟨hl, h1⟩ : loc = CARRIED ∧ _)]
        rfl
      · rw [if_pos hl, if_neg h1, if_neg (fun hh => h1 hh.2 : ¬ (loc = CARRIED ∧ _))]
        by_cases h2 : s.altCounters.getD 8 0 ≤ 11
        · rw [if_pos h2, if_pos (⟨hl, h2⟩ : loc = CARRIED ∧ _)]
          rfl
        · rw [if_neg h2, if_neg (fun hh => h2 hh.2 : ¬ (loc = CARRIED ∧ _))]
          rfl
    · rw [if_neg hl, if_neg (fun hh => hl hh.1 : ¬ (loc = CARRIED ∧ _)),
          if_neg (fun hh => hl hh.1 : ¬ (loc = CARRIED ∧ _))]
      rfl
  · have hc := iterateLight_countdown k light125State rfl (by decide)
      (by show (k : Int) < 125; omega)
    rw [hc]
    simp only [Option.map_some']
    refine congrArg some ?_
    show decide (light125State.bitFlags &&& shl32 16 ≠ 0) = false
    decide
  · have he := iterateLight_exhaust 124 light125State rfl (by decide) (by decide)
    rw [show (125 : Nat) = 124 + 1 by norm_num, he]
    decide

/-- Witness for C3 amended: `light125State` (light carried, flags clear,
125 turns) instantiated with `k = 3`. -/
theorem c3_light_amended_witness :
    ((updateLightSource light125State).map fun r => r.1.altCounters.getD 8 0) = some 124 ∧
    ((iterateLight 3 light125State).map fun t => decide (t.bitFlags &&& shl32 16 ≠ 0)) =
      some false ∧
    ((iterateLight 125 light125State).map fun t => decide (t.bitFlags &&& shl32 16 ≠ 0)) =
      some true := by
  have h := c3_light_amended light125State CARRIED 3 (by decide) rfl (by decide)
  exact ⟨h.1, h.2.2.2.1, h.2.2.2.2⟩



/-- Full computation of `LoadGame` applied to the output of `SaveGame` on a
loader-shaped state: every serialized field is restored and only
`displayedRoom` is (re)set. -/
theorem loadGame_saveGame (s : GameState)
    (hItems : s.itemLocations.length = s.header.numItems + 1)
    (hAC : s.altCounters.length = 9)
    (hAR : s.altRooms.length = 6)
    (hBF : s.bitFlags < 4294967296) :
    loadGame s (saveGame s) = ({ s with displayedRoom := false }, ["Game loaded."]) := by
  have hA : (List.range 6).map (fun i => s.altRooms.getD i 0) = s.altRooms := by
    rw [range_map_getD_take 6 _ hAR.ge, ← hAR, List.take_length]
  have hB : (List.range 8).map (fun i => s.altCounters.getD i 0) = s.altCounters.take 8 :=
    range_map_getD_take 8 _ (by rw [hAC]; norm_num)
  have hC : (List.range (s.header.numItems + 1)).map (fun i => s.itemLocations.getD i 0) =
      s.itemLocations := by
    rw [range_map_getD_take _ _ hItems.ge, ← hItems, List.take_length]
  have hsetlt : s.altCounters.set 8 (s.altCounters.getD 8 0) = s.altCounters :=
    set_self _ _ _ (get?_eq_some_getD _ 8 0 (by rw [hAC]; norm_num))
  have hslotsAR : loadSlots s.altRooms 0 6
      (s.altRooms ++ (s.altCounters.take 8 ++ s.itemLocations)) =
      (s.altRooms, s.altCounters.take 8 ++ s.itemLocations, true) := by
    rw [← hAR]
    exact loadSlots_self s.altRooms s.altRooms 0 _ (fun k _ => by rw [Nat.zero_add])
  have hslotsAC : loadSlots s.altCounters 0 8 (s.altCounters.take 8 ++ s.itemLocations) =
      (s.altCounters, s.itemLocations, true) := by
    have hlen : (s.altCounters.take 8).length = 8 := by
      rw [List.length_take, hAC]
      decide
    have hq := loadSlots_self (s.altCounters.take 8) s.altCounters 0 s.itemLocations
      (fun k hk => by
        rw [Nat.zero_add]
        rw [hlen] at hk
        exact (List.get?_take hk).symm)
    rw [hlen] at hq
    exact hq
  have hslotsIL : loadSlots s.itemLocations 0 (s.header.numItems + 1) s.itemLocations =
      (s.itemLocations, [], true) := by
    have hq := loadSlots_self s.itemLocations s.itemLocations 0 []
      (fun k _ => by rw [Nat.zero_add])
    rw [List.append_nil, hItems] at hq
    exact hq
  have hflags : ((s.bitFlags : Int) < 4294967296) := by exact_mod_cast hBF
  have hcond : (0 : Int) ≤ (s.bitFlags : Int) ∧ (s.bitFlags : Int) < 4294967296 :=
    ⟨Int.natCast_nonneg s.bitFlags, hflags⟩
  unfold saveGame loadGame
  dsimp only
  rw [if_neg (fun h => h rfl), if_pos hcond, hA, hB, hC, hsetlt, hslotsAR]
  dsimp only
  rw [hslotsAC]
  dsimp only
  rw [hslotsIL]
  dsimp only
  rfl

/-- C7: for every loader-shaped GameState (the item-location table has
`numItems + 1` entries, 9 alternate counters, 6 alternate rooms, and the
flags fit in 32 bits — all guaranteed by the loader), saving and then
loading restores every serialized field exactly: current room, counter, all
32 bit flags, the light counter `altCounters[8]`, all alternate rooms, all
alternate counters, and the full item-location table; the load succeeds. -/
theorem c7_roundtrip (s : GameState)
    (hItems : s.itemLocations.length = s.header.numItems + 1)
    (hAC : s.altCounters.length = 9)
    (hAR : s.altRooms.length = 6)
    (hBF : s.bitFlags < 4294967296) :
    (loadGame s (saveGame s)).1.currentRoom = s.currentRoom ∧
    (loadGame s (saveGame s)).1.counter = s.counter ∧
    (loadGame s (saveGame s)).1.bitFlags = s.bitFlags ∧
    (loadGame s (saveGame s)).1.altCounters = s.altCounters ∧
    (loadGame s (saveGame s)).1.altRooms = s.altRooms ∧
    (loadGame s (saveGame s)).1.itemLocations = s.itemLocations ∧
    (loadGame s (saveGame s)).2 = ["Game loaded."] := by
  rw [loadGame_saveGame s hItems hAC hAR hBF]
  exact ⟨rfl, rfl, rfl, rfl, rfl, rfl, rfl⟩

/-- Witness for C7 on `wfState`. -/
theorem c7_roundtrip_witness :
    (loadGame wfState (saveGame wfState)).1.currentRoom = wfState.currentRoom ∧
    (loadGame wfState (saveGame wfState)).1.counter = wfState.counter ∧
    (loadGame wfState (saveGame wfState)).1.bitFlags = wfState.bitFlags ∧
    (loadGame wfState (saveGame wfState)).1.altCounters = wfState.altCounters ∧
    (loadGame wfState (saveGame wfState)).1.altRooms = wfState.altRooms ∧
    (loadGame wfState (saveGame wfState)).1.itemLocations = wfState.itemLocations ∧
    (loadGame wfState (saveGame wfState)).2 = ["Game loaded."] :=
  c7_roundtrip wfState (by decide) (by decide) (by decide) (by decide)

end Adventure
